import Mathlib

/-!
Verification of the pipeline-manager graph engine, state persistence layer
and policy-gated dispatcher.

The Python source is embedded shallowly:

* Python dicts that preserve insertion order are modelled as Lean lists
  (association lists for `node_visits`, lists of records for `graph.nodes`);
  lookup is first-match, update replaces the first matching key in place and
  otherwise appends, exactly as a Python dict behaves for unique keys.
* `datetime.now().isoformat()` is modelled by an explicit `now : String`
  argument threaded through every function that reads the clock.
* Python exceptions become `Except` or `Option` results; raising before any
  mutation corresponds to returning the error without producing a new state.
* Python `list.sort` is a stable sort; it is modelled by a stable insertion
  sort (`sortEdges`), which agrees with any stable sort: the output is
  non-decreasing in the key and each key class keeps the input order.
* File input and output in the persistence layer is modelled by passing the
  serialized document (`SavedState`) around explicitly; the JSON round trip
  of a dict of strings, ints, lists and nulls is taken to be exact.
-/

namespace PipelineManager

/-! ## String helpers

Python string operators used by the source: `==`, `str.startswith`,
and the `in` containment test. -/

/-- Character-list test: the first list is an initial segment of the second
(Python `str.startswith`). -/
def chPre : List Char → List Char → Bool
  | [], _ => true
  | _ :: _, [] => false
  | a :: as, b :: bs => a == b && chPre as bs

/-- Character-list test: the first list occurs contiguously inside the second
(Python `needle in hay`). -/
def chSub : List Char → List Char → Bool
  | n, [] => n.isEmpty
  | n, b :: bs => chPre n (b :: bs) || chSub n bs

/-- Python `hay.startswith(needle)`. -/
def strStarts (hay needle : String) : Bool := chPre needle.data hay.data

/-- Python `needle in hay` (substring containment). -/
def strContains (hay needle : String) : Bool := chSub needle.data hay.data

/-! ## Graph engine data model (graph_engine.py) -/

/-- Condition that must be met for an edge to be traversable
(graph_engine.py, class EdgeCondition). -/
structure EdgeCondition where
  type : String
  tool : Option String := none
  phrases : List String := []
deriving DecidableEq

/-- EdgeCondition.matches_tool (graph_engine.py lines 29-42).  Python
falsiness of `self.tool` covers both `None` and the empty string. -/
def EdgeCondition.matches_tool (c : EdgeCondition) (mcp_name tool_name : String) : Bool :=
  if c.type == "tool" || c.type == "default" then
    match c.tool with
    | none => c.type == "default"
    | some t =>
      if t == "" then c.type == "default"
      else
        let full_name := "mcp__" ++ mcp_name ++ "__" ++ tool_name
        full_name == t || strStarts full_name t || strContains full_name t
  else false

/-- EdgeCondition.matches_phrase (graph_engine.py lines 44-59): returns the
matched flag together with the first matching phrase. -/
def EdgeCondition.matches_phrase (c : EdgeCondition) (text : String) : Bool × Option String :=
  if c.type == "phrase" || c.type == "default" then
    if c.phrases.isEmpty then (c.type == "default", none)
    else
      match c.phrases.find? (fun ph => strContains text.toLower ph.toLower) with
      | some ph => (true, some ph)
      | none => (false, none)
  else (false, none)

/-- A node in the pipeline graph (graph_engine.py, class Node). -/
structure Node where
  id : String
  name : String := ""
  mcps_enabled : List String := ["*"]
  tools_blocked : List String := []
  prompt_injection : Option String := none
  is_start : Bool := false
  is_end : Bool := false
  max_visits : Int := 10
deriving DecidableEq

/-- A directed edge (graph_engine.py, class Edge). -/
structure Edge where
  id : String
  from_node : String
  to_node : String
  condition : EdgeCondition
  priority : Int := 1
deriving DecidableEq

/-- Stable insertion of an edge into a priority-sorted list: the new edge
goes before the first strictly greater priority, after equal ones. -/
def insEdge (e : Edge) : List Edge → List Edge
  | [] => [e]
  | x :: xs => if e.priority ≤ x.priority then e :: x :: xs else x :: insEdge e xs

/-- Stable sort of edges by ascending priority, the model of the stable
Python `list.sort(key=lambda e: e.priority)`. -/
def sortEdges : List Edge → List Edge
  | [] => []
  | x :: xs => insEdge x (sortEdges xs)

/-- A complete pipeline graph (graph_engine.py, class Graph).  The node dict
is kept as a list in insertion order with unique ids; the derived
`edges_by_source` index is recomputed on demand by `get_outgoing_edges`.
The opaque metadata bag is not modelled; the one consumer of it in the
claims (the graph name used by the dispatcher) is passed explicitly. -/
structure Graph where
  nodes : List Node := []
  edges : List Edge := []
deriving DecidableEq

/-- Python `graph.nodes.get(node_id)`. -/
def Graph.nodesGet (g : Graph) (nid : String) : Option Node :=
  g.nodes.find? (fun n => n.id == nid)

/-- Graph._rebuild_edge_index followed by the index lookup
(graph_engine.py lines 123-133 and 155-157): the edges leaving a node, in
insertion order, stably sorted by priority. -/
def Graph.get_outgoing_edges (g : Graph) (nid : String) : List Edge :=
  sortEdges (g.edges.filter (fun e => e.from_node == nid))

/-- Graph.get_start_node (graph_engine.py lines 147-153): the first node
flagged is_start, otherwise the first node in insertion order, otherwise
nothing. -/
def Graph.get_start_node (g : Graph) : Option Node :=
  match g.nodes.find? (fun n => n.is_start) with
  | some n => some n
  | none => g.nodes.head?

/-- A single entry in the execution path history
(graph_engine.py, class PathEntry). -/
structure PathEntry where
  from_node : Option String
  to_node : String
  edge_id : Option String
  timestamp : String
  reason : String
deriving DecidableEq

/-- Runtime state of graph execution (graph_engine.py, class GraphState).
`node_visits` is an insertion-ordered association list modelling the dict. -/
structure GraphState where
  current_nodes : List String := []
  node_visits : List (String × Int) := []
  execution_path : List PathEntry := []
  active_graph : Option String := none
  max_visits_default : Int := 10
  total_transitions : Int := 0
  last_activity : Option String := none
deriving DecidableEq

/-- Python `dict.get(k, 0)` on the visit map. -/
def visitsGet (m : List (String × Int)) (k : String) : Int :=
  match m.find? (fun p => p.1 == k) with
  | some p => p.2
  | none => 0

/-- Python `d[k] = v`: replace the first binding of the key in place,
append when absent. -/
def visitsSet : List (String × Int) → String → Int → List (String × Int)
  | [], k, v => [(k, v)]
  | p :: rest, k, v => if p.1 == k then (k, v) :: rest else p :: visitsSet rest k v

/-- GraphState.get_current_node: the head of current_nodes. -/
def GraphState.get_current_node (s : GraphState) : Option String :=
  s.current_nodes.head?

/-- GraphState.get_visit_count. -/
def GraphState.get_visit_count (s : GraphState) (nid : String) : Int :=
  visitsGet s.node_visits nid

/-- GraphState.record_transition (graph_engine.py lines 236-255); the clock
is the explicit `now` argument. -/
def GraphState.record_transition (s : GraphState) (from_node : Option String)
    (to_node : String) (edge_id : Option String) (reason now : String) : GraphState :=
  { s with
    execution_path := s.execution_path ++ [⟨from_node, to_node, edge_id, now, reason⟩]
    node_visits := visitsSet s.node_visits to_node (visitsGet s.node_visits to_node + 1)
    current_nodes := [to_node]
    total_transitions := s.total_transitions + 1
    last_activity := some now }

/-- The two exceptions take_transition can raise: ValueError on a dangling
destination, MaxVisitsExceeded with node id, current count and cap. -/
inductive TransitionError where
  | unknownNode (node_id : String)
  | maxVisitsExceeded (node_id : String) (current_visits : Int) (max_visits : Int)
deriving DecidableEq

/-- The cap computed by take_transition (graph_engine.py line 346): the
destination max_visits when positive, else the state default. -/
def visitCap (dest : Node) (s : GraphState) : Int :=
  if dest.max_visits > 0 then dest.max_visits else s.max_visits_default

/-- take_transition (graph_engine.py lines 320-359).  Raising is modelled by
returning `.error` without any new state, so a failed transition leaves the
state untouched by construction; all mutation happens in record_transition,
which the source reaches only after the cap check passes. -/
def take_transition (g : Graph) (s : GraphState) (e : Edge) (reason now : String) :
    Except TransitionError GraphState :=
  match g.nodesGet e.to_node with
  | none => .error (.unknownNode e.to_node)
  | some dest =>
    let current_visits := s.get_visit_count e.to_node
    let max_visits := visitCap dest s
    if current_visits ≥ max_visits then
      .error (.maxVisitsExceeded e.to_node current_visits max_visits)
    else
      .ok (s.record_transition s.get_current_node e.to_node (some e.id) reason now)

/-- The trigger_value dict of evaluate_transitions, with the defaults that
`dict.get` supplies; a `none` trigger_value stands for Python None or an
empty (falsy) dict. -/
structure TriggerValue where
  mcp : String := ""
  tool : String := ""
  text : String := ""
deriving DecidableEq

/-- The per-edge test inside the evaluate_transitions loop
(graph_engine.py lines 295-313), including the elif fall-through. -/
def edgeMatches (e : Edge) (trigger_type : String) (trigger_value : Option TriggerValue) : Bool :=
  match trigger_value with
  | some tv =>
    if trigger_type == "tool" then e.condition.matches_tool tv.mcp tv.tool
    else if trigger_type == "phrase" then (e.condition.matches_phrase tv.text).1
    else if trigger_type == "none" then
      e.condition.type == "always" || e.condition.type == "default"
    else false
  | none =>
    if trigger_type == "none" then
      e.condition.type == "always" || e.condition.type == "default"
    else false

/-- evaluate_transitions (graph_engine.py lines 270-317).  The empty-string
guard mirrors Python falsiness of the current node id; the final stable
sort mirrors the closing `valid_edges.sort`. -/
def evaluate_transitions (g : Graph) (s : GraphState) (trigger_type : String)
    (trigger_value : Option TriggerValue) : List Edge :=
  match s.get_current_node with
  | none => []
  | some cid =>
    if cid == "" then []
    else sortEdges ((g.get_outgoing_edges cid).filter
      (fun e => edgeMatches e trigger_type trigger_value))

/-! ## State persistence (graph_state.py)

The state file is a single JSON document with exactly the fields written by
save_graph_state; it is modelled by `SavedState`.  Reading and writing the
file system is modelled by passing the document explicitly; an absent or
unreadable file is the `none` case of `Option SavedState`. -/

/-- The serialized graph-state document (graph_state.py lines 142-150). -/
structure SavedState where
  current_nodes : List String
  node_visits : List (String × Int)
  execution_path : List PathEntry
  active_graph : Option String
  max_visits_default : Int
  total_transitions : Int
  last_activity : Option String
deriving DecidableEq

/-- save_graph_state (graph_state.py lines 116-152): the state last_activity
field is overwritten with the current clock before serialization; the result
is the mutated in-memory state together with the written document. -/
def save_graph_state (s : GraphState) (now : String) : GraphState × SavedState :=
  let s2 := { s with last_activity := some now }
  (s2, ⟨s2.current_nodes, s2.node_visits, s2.execution_path, s2.active_graph,
        s2.max_visits_default, s2.total_transitions, s2.last_activity⟩)

/-- load_graph_state (graph_state.py lines 74-113): an absent or unparsable
file yields the default empty state; otherwise every field is read back,
with the defaults of `dict.get` for missing keys (a document produced by
save_graph_state always carries every key). -/
def load_graph_state : Option SavedState → GraphState
  | none => {}
  | some d => ⟨d.current_nodes, d.node_visits, d.execution_path, d.active_graph,
               d.max_visits_default, d.total_transitions, d.last_activity⟩

/-- initialize_graph_state (graph_state.py lines 155-189): fails (ValueError)
when the graph has no start node, otherwise builds and saves a fresh state
at the start node.  The subsequent save_graph_state call rewrites
last_activity with the same clock value, so the persisted document matches
this state. -/
def initialize_graph_state (g : Graph) (graph_name now : String) : Option GraphState :=
  match g.get_start_node with
  | none => none
  | some start =>
    some ⟨[start.id], [(start.id, 1)],
          [⟨none, start.id, none, now, "Graph initialized"⟩],
          some graph_name, 10, 0, some now⟩

/-- reset_graph_state (graph_state.py lines 192-229): the existing state is
the one load_graph_state returns for the project; its active_graph name and
max_visits_default survive the reset, everything else restarts at the start
node. -/
def reset_graph_state (existing : GraphState) (g : Graph) (now : String) : Option GraphState :=
  match g.get_start_node with
  | none => none
  | some start =>
    some ⟨[start.id], [(start.id, 1)],
          [⟨none, start.id, none, now, "Graph reset"⟩],
          existing.active_graph, existing.max_visits_default, 0, some now⟩

/-! ## Policy-gated dispatcher (server.py, execute_mcp_tool lines 905-1060)

The dispatcher environment gathers everything the Python function reads
from the outside world: whether the graph file exists, whether parsing it
succeeds, the parsed graph, what load_graph_state returns for the project
(`none` for a missing or corrupt state file), the graph name from the
metadata bag, the connection pool and configuration, the outcome of the
JSON-RPC call, and the clock.  Disk writes are assumed to succeed. -/

structure ExecEnv where
  graph_file_exists : Bool
  parse_ok : Bool
  graph : Graph := {}
  persisted : Option GraphState := none
  graph_name : String := "unnamed"
  conn_ok : Bool := true
  config_mcps : List String := []
  tool_call_ok : Bool := true
  tool_result_is_error : Bool := false
  now : String := ""
deriving DecidableEq

/-- The possible structured results of execute_mcp_tool: the policy denial
of step 2 (carrying the current node id and the allowed list), the two
connection failures of step 3, the transport error of step 4, the remote
error surfaced in step 6, and success carrying the transition hint. -/
inductive ExecResult where
  | policyDenied (node_id : Option String) (available_mcps : List String)
  | mcpNotFound (available_mcps : List String)
  | connectionFailed
  | toolCallError
  | remoteError
  | success (transitions : List Edge)
deriving DecidableEq

/-- Whether a result is the policy denial of step 2. -/
def ExecResult.isPolicyDenied : ExecResult → Bool
  | .policyDenied _ _ => true
  | _ => false

/-- The observable outcome of one execute_mcp_tool call: the returned
result, the content of the state file afterwards, and whether
get_mcp_connection was invoked (the subprocess pool touched). -/
structure ExecOut where
  result : ExecResult
  persisted : Option GraphState
  conn_attempted : Bool
deriving DecidableEq

/-- The context step 1 of execute_mcp_tool leaves behind: the resolved
current node, the effective allow-list, the graph and state variables, and
the state file content after a possible initialization. -/
structure LoadCtx where
  current_node : Option Node
  enabled_mcps : List String
  graphOpt : Option Graph
  stateOpt : Option GraphState
  persistedAfter : Option GraphState
deriving DecidableEq

/-- Python `graph.nodes.get(state.get_current_node())`, tolerating a state
with no current node (server.py lines 971-972). -/
def resolveNode (env : ExecEnv) (st : GraphState) : Option Node :=
  match st.get_current_node with
  | none => none
  | some cid => env.graph.nodesGet cid

/-- The tail of step 1 shared by the initialized and pre-existing paths:
resolve the current node id in the graph and adopt its allow-list when
found (server.py lines 971-974). -/
def finishLoad (env : ExecEnv) (st : GraphState) (persisted2 : Option GraphState) : LoadCtx :=
  match resolveNode env st with
  | some nd => ⟨some nd, nd.mcps_enabled, some env.graph, some st, persisted2⟩
  | none => ⟨none, ["*"], some env.graph, some st, persisted2⟩

/-- Step 1 of execute_mcp_tool (server.py lines 953-976).  Any exception in
the try block is swallowed and leaves the allow-list at the wildcard; the
two modelled exception sites are the graph-file parse and the ValueError of
initialize_graph_state on a graph with no start node.  A successful
initialization persists the fresh state before any policy check runs. -/
def loadPhase (env : ExecEnv) : LoadCtx :=
  if env.graph_file_exists then
    if env.parse_ok then
      let st0 := match env.persisted with
        | some s => s
        | none => {}
      if st0.current_nodes.isEmpty then
        match initialize_graph_state env.graph env.graph_name env.now with
        | none => ⟨none, ["*"], some env.graph, some st0, env.persisted⟩
        | some st1 => finishLoad env st1 (some st1)
      else finishLoad env st0 env.persisted
    else ⟨none, ["*"], none, none, env.persisted⟩
  else ⟨none, ["*"], none, none, env.persisted⟩

/-- execute_mcp_tool (server.py lines 905-1060): load phase, policy gate,
connection acquisition, tool call, transition hint. -/
def execute_mcp_tool (env : ExecEnv) (mcp_name tool_name : String) : ExecOut :=
  if !(loadPhase env).enabled_mcps.contains "*"
      && !(loadPhase env).enabled_mcps.contains mcp_name then
    ⟨.policyDenied ((loadPhase env).current_node.map (fun n => n.id))
       (loadPhase env).enabled_mcps,
     (loadPhase env).persistedAfter, false⟩
  else if !env.conn_ok then
    if !env.config_mcps.contains mcp_name then
      ⟨.mcpNotFound env.config_mcps, (loadPhase env).persistedAfter, true⟩
    else ⟨.connectionFailed, (loadPhase env).persistedAfter, true⟩
  else if !env.tool_call_ok then
    ⟨.toolCallError, (loadPhase env).persistedAfter, true⟩
  else if env.tool_result_is_error then
    ⟨.remoteError, (loadPhase env).persistedAfter, true⟩
  else
    let transitions := match loadPhase env with
      | ⟨_, _, some g, some st, _⟩ =>
        evaluate_transitions g st "tool" (some ⟨mcp_name, tool_name, ""⟩)
      | _ => []
    ⟨.success transitions, (loadPhase env).persistedAfter, true⟩

/-- The graph state the project state file denotes before the call
(load_graph_state semantics: a missing file reads as the empty state). -/
def persistedStateBefore (env : ExecEnv) : GraphState := env.persisted.getD {}

/-- The graph state the project state file denotes after the call. -/
def persistedStateAfter (o : ExecOut) : GraphState := o.persisted.getD {}

/-! ## Literal statements of the contested spec claims

Each `claim…Stated` definition is the spec sentence as written, to be
refuted at a concrete input where the code disagrees. -/

/-- The pattern test of the spec sentence on tool matching: the candidate
string equals the pattern, starts with it, or contains it; no pattern set
means the test cannot succeed. -/
def claimPatternTest (pt : Option String) (s : String) : Prop :=
  match pt with
  | some pat => s = pat ∨ strStarts s pat = true ∨ strContains s pat = true
  | none => False

/-- The tool-matching claim as stated: matches_tool(p, t) is true exactly
when the string p ++ "__" ++ t passes the pattern test or the condition is
a default with no tool pattern, and non-tool non-default variants never
match. -/
def claimToolMatchStated : Prop :=
  (∀ (c : EdgeCondition) (p t : String),
    c.matches_tool p t = true ↔
      (claimPatternTest c.tool (p ++ "__" ++ t) ∨ (c.type = "default" ∧ c.tool = none)))
  ∧ (∀ (c : EdgeCondition) (p t : String),
      c.type ≠ "tool" → c.type ≠ "default" → c.matches_tool p t = false)

/-- The default-fallback claim as stated: whenever a default-variant edge is
in the evaluator output, no other outgoing edge of the current node matched
the trigger. -/
def claimDefaultFallbackStated : Prop :=
  ∀ (g : Graph) (s : GraphState) (tt : String) (tv : Option TriggerValue)
    (cid : String) (e e2 : Edge),
    s.get_current_node = some cid →
    e ∈ evaluate_transitions g s tt tv →
    e.condition.type = "default" →
    e2 ∈ g.get_outgoing_edges cid →
    e2 ≠ e →
    edgeMatches e2 tt tv = false

/-- The round-trip claim as stated: saving a state and loading the document
back returns the very same state, every field included. -/
def claimRoundTripStated : Prop :=
  ∀ (s : GraphState) (now : String),
    load_graph_state (some (save_graph_state s now).2) = s

/-- The no-auto-advance claim as stated: a successful execute call leaves
the current node and total transition count of the persisted state exactly
as they were. -/
def claimNoAutoAdvanceStated : Prop :=
  ∀ (env : ExecEnv) (m t : String) (tr : List Edge),
    (execute_mcp_tool env m t).result = .success tr →
    (persistedStateAfter (execute_mcp_tool env m t)).get_current_node
        = (persistedStateBefore env).get_current_node
    ∧ (persistedStateAfter (execute_mcp_tool env m t)).total_transitions
        = (persistedStateBefore env).total_transitions

/-! ## Concrete instances used by counterexamples and witnesses -/

/-- A tool condition whose pattern is the bare qualified-name prelude. -/
def cexCond : EdgeCondition := ⟨"tool", some "mcp__", []⟩

/-- Tool condition matching the qualified name of provider X, tool t. -/
def cexCondTool : EdgeCondition := ⟨"tool", some "mcp__X__t", []⟩

/-- A default condition with no tool pattern. -/
def cexCondDefault : EdgeCondition := ⟨"default", none, []⟩

/-- Edge a -> b guarded by the tool condition, priority 1. -/
def cexE1 : Edge := ⟨"e1", "a", "b", cexCondTool, 1⟩

/-- Edge a -> c guarded by the default condition, priority 2. -/
def cexE2 : Edge := ⟨"e2", "a", "c", cexCondDefault, 2⟩

/-- Three-node graph with a tool edge and a default edge out of node a. -/
def cexGraph : Graph :=
  ⟨[⟨"a", "A", ["*"], [], none, true, false, 10⟩,
    ⟨"b", "B", ["*"], [], none, false, false, 10⟩,
    ⟨"c", "C", ["*"], [], none, false, true, 10⟩],
   [cexE1, cexE2]⟩

/-- State currently at node a. -/
def cexState : GraphState := { current_nodes := ["a"], node_visits := [("a", 1)] }

/-- The tool trigger for provider X, tool t. -/
def cexTV : TriggerValue := ⟨"X", "t", ""⟩

/-- The single start node of the small dispatcher example graph. -/
def nodeA : Node := ⟨"a", "A", ["*"], [], none, true, false, 10⟩

/-- Single-start-node graph with no edges, for the dispatcher examples. -/
def oneNodeGraph : Graph := ⟨[nodeA], []⟩

/-- Dispatcher environment whose project has a graph file but an empty
(yet-uninitialized) state document. -/
def emptyStateEnv : ExecEnv :=
  { graph_file_exists := true, parse_ok := true, graph := oneNodeGraph,
    persisted := some {}, graph_name := "g", conn_ok := true,
    config_mcps := ["X"], tool_call_ok := true, tool_result_is_error := false,
    now := "t1" }

/-- An initialized state sitting at node a of `oneNodeGraph`. -/
def initializedState : GraphState :=
  { current_nodes := ["a"], node_visits := [("a", 1)],
    execution_path := [⟨none, "a", none, "t0", "Graph initialized"⟩],
    active_graph := some "g", total_transitions := 0, last_activity := some "t0" }

/-- Dispatcher environment with an already-initialized state. -/
def readyEnv : ExecEnv :=
  { graph_file_exists := true, parse_ok := true, graph := oneNodeGraph,
    persisted := some initializedState, graph_name := "g", conn_ok := true,
    config_mcps := ["X"], tool_call_ok := true, tool_result_is_error := false,
    now := "t2" }

/-- A node that only allows the Context7 provider. -/
def restrictedNode : Node := ⟨"n", "N", ["Context7"], [], none, true, false, 10⟩

/-- Graph holding only the restricted node. -/
def restrictedGraph : Graph := ⟨[restrictedNode], []⟩

/-- Initialized state at the restricted node. -/
def restrictedState : GraphState :=
  { current_nodes := ["n"], node_visits := [("n", 1)] }

/-- Dispatcher environment whose current node only allows Context7. -/
def restrictedEnv : ExecEnv :=
  { graph_file_exists := true, parse_ok := true, graph := restrictedGraph,
    persisted := some restrictedState, graph_name := "g", conn_ok := true,
    config_mcps := ["Other"], tool_call_ok := true, tool_result_is_error := false,
    now := "t3" }

/-- Dispatcher environment whose graph file exists but fails to parse. -/
def brokenGraphEnv : ExecEnv :=
  { graph_file_exists := true, parse_ok := false, graph := restrictedGraph,
    persisted := some restrictedState, graph_name := "g", conn_ok := true,
    config_mcps := ["Other"], tool_call_ok := true, tool_result_is_error := false,
    now := "t4" }

/-- Always-condition edges with a priority tie between e1 and e3. -/
def tieE1 : Edge := ⟨"t1", "a", "b", ⟨"always", none, []⟩, 2⟩

/-- Second edge of the tie example, strictly smaller priority. -/
def tieE2 : Edge := ⟨"t2", "a", "c", ⟨"always", none, []⟩, 1⟩

/-- Third edge of the tie example, tied with the first. -/
def tieE3 : Edge := ⟨"t3", "a", "b", ⟨"always", none, []⟩, 2⟩

/-- Graph with three outgoing edges from node a, two of them tied. -/
def tieGraph : Graph :=
  ⟨[⟨"a", "A", ["*"], [], none, true, false, 10⟩,
    ⟨"b", "B", ["*"], [], none, false, true, 10⟩,
    ⟨"c", "C", ["*"], [], none, false, true, 10⟩],
   [tieE1, tieE2, tieE3]⟩

/-- A destination node with a small visit cap for the transition example. -/
def capNode : Node := ⟨"b", "B", ["*"], [], none, false, false, 2⟩

/-- Always-edge into the capped node. -/
def capEdge : Edge := ⟨"e", "a", "b", ⟨"always", none, []⟩, 1⟩

/-- Graph with the capped destination. -/
def capGraph : Graph :=
  ⟨[⟨"a", "A", ["*"], [], none, true, false, 10⟩, capNode], [capEdge]⟩

/-- State with one prior visit to the capped node. -/
def capState : GraphState :=
  { current_nodes := ["a"], node_visits := [("a", 1), ("b", 1)] }

/-- A populated pre-reset state whose name and default cap must survive. -/
def preResetState : GraphState :=
  { current_nodes := ["z"], node_visits := [("z", 3)],
    execution_path := [⟨none, "z", none, "t0", "Graph initialized"⟩],
    active_graph := some "mygraph", max_visits_default := 7,
    total_transitions := 5, last_activity := some "t0" }

/-- A two-node graph in which no node is flagged as start. -/
def noStartGraph : Graph :=
  ⟨[⟨"p", "P", ["*"], [], none, false, true, 10⟩,
    ⟨"q", "Q", ["*"], [], none, false, true, 10⟩], []⟩

/-- State sitting at node a of the tie graph. -/
def tieState : GraphState := { current_nodes := ["a"], node_visits := [("a", 1)] }

/-! ## Helper lemmas -/

theorem visitsGet_visitsSet_self (m : List (String × Int)) (k : String) (v : Int) :
    visitsGet (visitsSet m k v) k = v := by
  induction m with
  | nil => simp [visitsSet, visitsGet, List.find?]
  | cons p rest ih =>
    by_cases h : (p.1 == k) = true
    · simp [visitsSet, h, visitsGet, List.find?]
    · have h2 : (p.1 == k) = false := by simpa using h
      simp only [visitsSet, h2, Bool.false_eq_true, if_false]
      simpa [visitsGet, List.find?, h2] using ih

theorem mem_insEdge {a e : Edge} {l : List Edge} : a ∈ insEdge e l ↔ a = e ∨ a ∈ l := by
  induction l with
  | nil => simp [insEdge]
  | cons x xs ih =>
    simp only [insEdge]
    split
    · simp [List.mem_cons]
    · simp only [List.mem_cons, ih]
      tauto

theorem pairwise_insEdge {e : Edge} {l : List Edge}
    (h : l.Pairwise (fun a b => a.priority ≤ b.priority)) :
    (insEdge e l).Pairwise (fun a b => a.priority ≤ b.priority) := by
  induction l with
  | nil => simp [insEdge]
  | cons x xs ih =>
    rcases List.pairwise_cons.mp h with ⟨hx, hxs⟩
    simp only [insEdge]
    split
    · next hle =>
      refine List.pairwise_cons.mpr ⟨?_, h⟩
      intro b hb
      rcases List.mem_cons.mp hb with rfl | hb
      · exact hle
      · exact le_trans hle (hx b hb)
    · next hgt =>
      refine List.pairwise_cons.mpr ⟨?_, ih hxs⟩
      intro b hb
      rcases mem_insEdge.mp hb with rfl | hb
      · omega
      · exact hx b hb

theorem sortEdges_pairwise (l : List Edge) :
    (sortEdges l).Pairwise (fun a b => a.priority ≤ b.priority) := by
  induction l with
  | nil => simp [sortEdges]
  | cons x xs ih => exact pairwise_insEdge ih

theorem mem_sortEdges {a : Edge} {l : List Edge} : a ∈ sortEdges l ↔ a ∈ l := by
  induction l with
  | nil => simp [sortEdges]
  | cons x xs ih => simp [sortEdges, mem_insEdge, ih, List.mem_cons]

theorem filter_insEdge_eq {e : Edge} {l : List Edge} {p : Int} (he : e.priority = p) :
    (insEdge e l).filter (fun x => x.priority == p)
      = e :: l.filter (fun x => x.priority == p) := by
  induction l with
  | nil => simp [insEdge, he]
  | cons x xs ih =>
    simp only [insEdge]
    split
    · next hle => simp [List.filter_cons, he]
    · next hgt =>
      have hx : (x.priority == p) = false := by
        rw [beq_eq_false_iff_ne]
        omega
      simp [List.filter_cons, hx, ih]

theorem filter_insEdge_ne {e : Edge} {l : List Edge} {p : Int} (he : e.priority ≠ p) :
    (insEdge e l).filter (fun x => x.priority == p)
      = l.filter (fun x => x.priority == p) := by
  have hef : (e.priority == p) = false := by rw [beq_eq_false_iff_ne]; exact he
  induction l with
  | nil => simp [insEdge, hef]
  | cons x xs ih =>
    simp only [insEdge]
    split
    · simp [List.filter_cons, hef]
    · simp only [List.filter_cons, ih]

theorem sortEdges_filter_priority (l : List Edge) (p : Int) :
    (sortEdges l).filter (fun x => x.priority == p)
      = l.filter (fun x => x.priority == p) := by
  induction l with
  | nil => rfl
  | cons x xs ih =>
    simp only [sortEdges]
    by_cases h : x.priority = p
    · rw [filter_insEdge_eq h, ih, List.filter_cons_of_pos (by simpa using h)]
    · rw [filter_insEdge_ne h, ih, List.filter_cons_of_neg (by simpa using h)]

theorem filter_swap_and (l : List Edge) (p q : Edge → Bool) :
    (l.filter fun e => p e && q e) = (l.filter fun e => q e && p e) := by
  induction l with
  | nil => rfl
  | cons x xs ih =>
    by_cases hp : p x <;> by_cases hq : q x <;>
      simp [List.filter_cons, hp, hq, ih]

theorem finishLoad_persistedAfter (env : ExecEnv) (st : GraphState)
    (p2 : Option GraphState) : (finishLoad env st p2).persistedAfter = p2 := by
  unfold finishLoad
  split <;> rfl

theorem finishLoad_enabled {env : ExecEnv} {st : GraphState}
    {p2 : Option GraphState} {nd : Node}
    (h : (finishLoad env st p2).current_node = some nd) :
    (finishLoad env st p2).enabled_mcps = nd.mcps_enabled := by
  cases hr : resolveNode env st with
  | none => simp [finishLoad, hr] at h
  | some nd2 =>
    simp only [finishLoad, hr, Option.some.injEq] at h ⊢
    rw [← h]

theorem execute_persisted (env : ExecEnv) (m t : String) :
    (execute_mcp_tool env m t).persisted = (loadPhase env).persistedAfter := by
  unfold execute_mcp_tool
  repeat' split
  all_goals rfl

theorem loadPhase_persistedAfter (env : ExecEnv)
    (h : (persistedStateBefore env).current_nodes.isEmpty = false) :
    (loadPhase env).persistedAfter = env.persisted := by
  unfold loadPhase
  by_cases hf : env.graph_file_exists
  · by_cases hp : env.parse_ok
    · simp only [hf, hp, if_true]
      cases hper : env.persisted with
      | none =>
        rw [persistedStateBefore, hper] at h
        simp [Option.getD] at h
      | some s =>
        rw [persistedStateBefore, hper] at h
        simp only [Option.getD] at h
        simp [hper, h, finishLoad_persistedAfter]
    · simp [hf, hp]
  · simp [hf]

theorem record_transition_visit_count (s : GraphState) (fr : Option String)
    (dst : String) (eid : Option String) (reason now : String) :
    (s.record_transition fr dst eid reason now).get_visit_count dst
      = s.get_visit_count dst + 1 := by
  simp only [GraphState.record_transition, GraphState.get_visit_count]
  exact visitsGet_visitsSet_self _ _ _

theorem loadPhase_enabled {env : ExecEnv} {nd : Node}
    (h : (loadPhase env).current_node = some nd) :
    (loadPhase env).enabled_mcps = nd.mcps_enabled := by
  unfold loadPhase at h ⊢
  by_cases hf : env.graph_file_exists
  · by_cases hp : env.parse_ok
    · simp only [hf, hp, if_true] at h ⊢
      cases hper : env.persisted with
      | none =>
        simp only [hper] at h ⊢
        cases hinit : initialize_graph_state env.graph env.graph_name env.now with
        | none => simp [hinit] at h
        | some st1 =>
          simp only [hinit] at h ⊢
          exact finishLoad_enabled h
      | some s =>
        simp only [hper] at h ⊢
        by_cases hemp : s.current_nodes.isEmpty = true
        · simp only [hemp, if_true] at h ⊢
          cases hinit : initialize_graph_state env.graph env.graph_name env.now with
          | none => simp [hinit] at h
          | some st1 =>
            simp only [hinit] at h ⊢
            exact finishLoad_enabled h
        · simp only [hemp, Bool.false_eq_true, if_false] at h ⊢
          exact finishLoad_enabled h
    · simp [hf, hp] at h
  · simp [hf] at h

/-! ## Claim theorems -/

/-- C1: take_transition computes the cap as the destination node max_visits
when that is positive, else the state default; at or above the cap it fails
with MaxVisitsExceeded carrying the node id, the current count and the cap
(the embedding returns the error without any new state, matching the source
where the raise precedes every mutation, so the state is unchanged); below
the cap it succeeds with record_transition, which increments the destination
visit count by exactly one, keeping it within the cap. -/
theorem take_transition_caps_visits (g : Graph) (s : GraphState) (e : Edge)
    (reason now : String) (dest : Node)
    (hdest : g.nodesGet e.to_node = some dest) :
    take_transition g s e reason now
      = (if s.get_visit_count e.to_node ≥ visitCap dest s
         then Except.error (TransitionError.maxVisitsExceeded e.to_node
                (s.get_visit_count e.to_node) (visitCap dest s))
         else Except.ok (s.record_transition s.get_current_node e.to_node
                (some e.id) reason now))
    ∧ (s.record_transition s.get_current_node e.to_node (some e.id) reason
        now).get_visit_count e.to_node = s.get_visit_count e.to_node + 1
    ∧ (if s.get_visit_count e.to_node < visitCap dest s
       then (s.record_transition s.get_current_node e.to_node (some e.id)
              reason now).get_visit_count e.to_node ≤ visitCap dest s
       else True) := by
  refine ⟨?_, record_transition_visit_count s _ _ _ _ _, ?_⟩
  · unfold take_transition
    rw [hdest]
  · split
    · next hlt =>
      rw [record_transition_visit_count]
      omega
    · trivial

/-- Witness for C1 at a concrete graph: one prior visit, cap two, so the
transition succeeds and the count lands exactly at the cap. -/
theorem take_transition_caps_visits_witness :
    (capGraph.nodesGet capEdge.to_node = some capNode)
    ∧ (take_transition capGraph capState capEdge "go" "t5"
        = (if capState.get_visit_count capEdge.to_node ≥ visitCap capNode capState
           then Except.error (TransitionError.maxVisitsExceeded capEdge.to_node
                  (capState.get_visit_count capEdge.to_node) (visitCap capNode capState))
           else Except.ok (capState.record_transition capState.get_current_node
                  capEdge.to_node (some capEdge.id) "go" "t5"))
      ∧ (capState.record_transition capState.get_current_node capEdge.to_node
          (some capEdge.id) "go" "t5").get_visit_count capEdge.to_node
          = capState.get_visit_count capEdge.to_node + 1
      ∧ (if capState.get_visit_count capEdge.to_node < visitCap capNode capState
         then (capState.record_transition capState.get_current_node capEdge.to_node
                (some capEdge.id) "go" "t5").get_visit_count capEdge.to_node
                ≤ visitCap capNode capState
         else True)) :=
  ⟨by decide, take_transition_caps_visits capGraph capState capEdge "go" "t5" capNode (by decide)⟩

/-- C4, counterexample: saving overwrites last_activity with the save-time
clock, so a state whose stored last_activity differs from the clock does not
survive the save-then-load round trip. -/
theorem roundtrip_claim_cex : ¬ claimRoundTripStated := by
  intro h
  exact absurd (h { last_activity := some "t0" } "t1") (by decide)

/-- C4 amended: saving a state and loading the written document back yields
the state with every field preserved except last_activity, which is set to
the save-time clock. -/
theorem save_load_roundtrip_amended (s : GraphState) (now : String) :
    load_graph_state (some (save_graph_state s now).2)
      = { s with last_activity := some now } := rfl

/-- C8: resetting positions the state at the start node with visit count 1,
a single trace entry and zero transitions, preserving the active graph name
and the default max-visits of the pre-existing state. -/
theorem reset_graph_state_spec (existing : GraphState) (g : Graph)
    (now : String) (start : Node)
    (hs : g.get_start_node = some start) :
    reset_graph_state existing g now
      = some ⟨[start.id], [(start.id, 1)],
              [⟨none, start.id, none, now, "Graph reset"⟩],
              existing.active_graph, existing.max_visits_default, 0, some now⟩ := by
  unfold reset_graph_state
  rw [hs]

/-- Witness for C8 on a populated state: the graph name and default cap of
the pre-reset state survive. -/
theorem reset_graph_state_spec_witness :
    (oneNodeGraph.get_start_node = some nodeA)
    ∧ (reset_graph_state preResetState oneNodeGraph "t6"
        = some ⟨[nodeA.id], [(nodeA.id, 1)],
                [⟨none, nodeA.id, none, "t6", "Graph reset"⟩],
                preResetState.active_graph, preResetState.max_visits_default,
                0, some "t6"⟩) :=
  ⟨by decide, reset_graph_state_spec preResetState oneNodeGraph "t6" nodeA (by decide)⟩

/-- C10: on a non-empty graph where no node is flagged is_start,
get_start_node falls back to the first node in insertion order, so
initialization succeeds; it returns nothing exactly when the graph is
empty. -/
theorem get_start_node_fallback_spec (g : Graph) (gname now : String)
    (h1 : g.nodes.isEmpty = false)
    (h2 : g.nodes.all (fun n => !n.is_start) = true) :
    g.get_start_node = g.nodes.head?
    ∧ (initialize_graph_state g gname now).isSome = true
    ∧ (g.get_start_node = none ↔ g.nodes = []) := by
  have hfind : g.nodes.find? (fun n => n.is_start) = none := by
    rw [List.find?_eq_none]
    intro x hx
    have hx2 := List.all_eq_true.mp h2 x hx
    simp at hx2 ⊢
    exact hx2
  have hsn : g.get_start_node = g.nodes.head? := by
    unfold Graph.get_start_node
    rw [hfind]
  cases hn : g.nodes with
  | nil => rw [hn] at h1; simp at h1
  | cons a l =>
    rw [hn] at hsn
    refine ⟨hsn, ?_, ?_⟩
    · unfold initialize_graph_state
      rw [hsn]
      rfl
    · rw [hsn]
      simp

/-- Witness for C10 on a two-node graph with no designated start. -/
theorem get_start_node_fallback_spec_witness :
    (noStartGraph.nodes.isEmpty = false)
    ∧ (noStartGraph.nodes.all (fun n => !n.is_start) = true)
    ∧ (noStartGraph.get_start_node = noStartGraph.nodes.head?
       ∧ (initialize_graph_state noStartGraph "g" "t7").isSome = true
       ∧ (noStartGraph.get_start_node = none ↔ noStartGraph.nodes = [])) :=
  ⟨by decide, by decide, get_start_node_fallback_spec noStartGraph "g" "t7" (by decide) (by decide)⟩

/-- C5, counterexample: with a graph file present and an uninitialized state
document, a successful execute call initializes and persists the state at
the start node, changing the persisted current node from nothing to the
start node. -/
theorem no_auto_advance_claim_cex : ¬ claimNoAutoAdvanceStated := by
  intro h
  have h2 := h emptyStateEnv "X" "t" [] (by decide)
  exact absurd h2.1 (by decide)

/-- C5 amended: whenever the pre-call persisted state already has a current
node, execute_mcp_tool leaves the persisted state completely untouched, in
particular its current node and total transition count; only an
uninitialized state can be (once) initialized at the start node, which keeps
total_transitions at zero. -/
theorem execute_keeps_initialized_state (env : ExecEnv) (m t : String)
    (h : (persistedStateBefore env).current_nodes.isEmpty = false) :
    (execute_mcp_tool env m t).persisted = env.persisted :=
  (execute_persisted env m t).trans (loadPhase_persistedAfter env h)

/-- Witness for C5 amended on an initialized environment. -/
theorem execute_keeps_initialized_state_witness :
    ((persistedStateBefore readyEnv).current_nodes.isEmpty = false)
    ∧ ((execute_mcp_tool readyEnv "X" "t").persisted = readyEnv.persisted) :=
  ⟨by decide, execute_keeps_initialized_state readyEnv "X" "t" (by decide)⟩

/-- C6: when the current node resolves and its allow-list contains neither
the wildcard nor the requested provider, the dispatcher returns the policy
denial carrying the node id and the allowed list, without touching the
connection pool. -/
theorem execute_policy_denied (env : ExecEnv) (m t : String) (nd : Node)
    (hn : (loadPhase env).current_node = some nd)
    (hw : nd.mcps_enabled.contains "*" = false)
    (hm : nd.mcps_enabled.contains m = false) :
    execute_mcp_tool env m t
      = ⟨.policyDenied (some nd.id) nd.mcps_enabled,
         (loadPhase env).persistedAfter, false⟩ := by
  have he := loadPhase_enabled hn
  have hw2 : ¬ ("*" ∈ nd.mcps_enabled) := by simpa using hw
  have hm2 : ¬ (m ∈ nd.mcps_enabled) := by simpa using hm
  unfold execute_mcp_tool
  simp [he, hn, hw2, hm2]

/-- Witness for C6: a node allowing only Context7 denies provider Other. -/
theorem execute_policy_denied_witness :
    ((loadPhase restrictedEnv).current_node = some restrictedNode)
    ∧ (restrictedNode.mcps_enabled.contains "*" = false)
    ∧ (restrictedNode.mcps_enabled.contains "Other" = false)
    ∧ (execute_mcp_tool restrictedEnv "Other" "foo"
        = ⟨.policyDenied (some restrictedNode.id) restrictedNode.mcps_enabled,
           (loadPhase restrictedEnv).persistedAfter, false⟩) :=
  ⟨by decide, by decide, by decide,
   execute_policy_denied restrictedEnv "Other" "foo" restrictedNode
     (by decide) (by decide) (by decide)⟩

/-- C9: if the graph file exists but loading raises, the exception is
swallowed, the allow-list stays at the wildcard, no policy denial can be
returned, the connection pool is contacted anyway, and the state file is
untouched. -/
theorem execute_load_failure_allows_all (env : ExecEnv) (m t : String)
    (hf : env.graph_file_exists = true) (hp : env.parse_ok = false) :
    (loadPhase env).enabled_mcps = ["*"]
    ∧ (execute_mcp_tool env m t).result.isPolicyDenied = false
    ∧ (execute_mcp_tool env m t).conn_attempted = true
    ∧ (execute_mcp_tool env m t).persisted = env.persisted := by
  have hl : loadPhase env = ⟨none, ["*"], none, none, env.persisted⟩ := by
    unfold loadPhase
    simp [hf, hp]
  refine ⟨by rw [hl], ?_, ?_, ?_⟩ <;>
    · unfold execute_mcp_tool
      rw [hl]
      norm_num [List.contains_cons]
      repeat' split
      all_goals rfl

/-- Witness for C9 on an environment whose graph file fails to parse: the
would-be restrictive node is ignored. -/
theorem execute_load_failure_allows_all_witness :
    (brokenGraphEnv.graph_file_exists = true)
    ∧ (brokenGraphEnv.parse_ok = false)
    ∧ ((loadPhase brokenGraphEnv).enabled_mcps = ["*"]
       ∧ (execute_mcp_tool brokenGraphEnv "Other" "foo").result.isPolicyDenied = false
       ∧ (execute_mcp_tool brokenGraphEnv "Other" "foo").conn_attempted = true
       ∧ (execute_mcp_tool brokenGraphEnv "Other" "foo").persisted = brokenGraphEnv.persisted) :=
  ⟨by decide, by decide,
   execute_load_failure_allows_all brokenGraphEnv "Other" "foo" (by decide) (by decide)⟩

/-- C3, counterexample: with a tool edge that matches the trigger and a
default edge out of the same node, the evaluator returns both, so a default
edge is returned even though another outgoing edge matched. -/
theorem default_fallback_claim_cex : ¬ claimDefaultFallbackStated := by
  intro h
  have h2 := h cexGraph cexState "tool" (some cexTV) "a" cexE2 cexE1
    (by decide) (by decide) (by decide) (by decide) (by decide)
  exact absurd h2 (by decide)

/-- C3 amended: a default-variant edge with no tool pattern is included in
the evaluator output for every tool trigger, regardless of whether any other
outgoing edge matched; the fallback role is realized only through priority
ordering, not through exclusion. -/
theorem default_edge_always_included (g : Graph) (s : GraphState)
    (tv : TriggerValue) (e : Edge) (cid : String)
    (hc : s.get_current_node = some cid)
    (hne : (cid == "") = false)
    (he : e ∈ g.get_outgoing_edges cid)
    (hd : e.condition.type = "default")
    (ht : e.condition.tool = none) :
    e ∈ evaluate_transitions g s "tool" (some tv) := by
  unfold evaluate_transitions
  rw [hc]
  simp only [hne, Bool.false_eq_true, if_false]
  rw [mem_sortEdges]
  refine List.mem_filter.mpr ⟨he, ?_⟩
  simp [edgeMatches, EdgeCondition.matches_tool, hd, ht]

/-- Witness for C3 amended: the default edge of the counterexample graph is
in the evaluator output for the matching tool trigger. -/
theorem default_edge_always_included_witness :
    (cexState.get_current_node = some "a")
    ∧ (("a" == "") = false)
    ∧ (cexE2 ∈ cexGraph.get_outgoing_edges "a")
    ∧ (cexE2.condition.type = "default")
    ∧ (cexE2.condition.tool = none)
    ∧ cexE2 ∈ evaluate_transitions cexGraph cexState "tool" (some cexTV) :=
  ⟨by decide, by decide, by decide, by decide, by decide,
   default_edge_always_included cexGraph cexState cexTV cexE2 "a"
     (by decide) (by decide) (by decide) (by decide) (by decide)⟩

/-- C2, counterexample: the source matches patterns against the prefixed
qualified name mcp__provider__tool, so the pattern consisting of the bare
prelude matches in the code although the claimed test on provider__tool
fails. -/
theorem tool_match_claim_cex : ¬ claimToolMatchStated := by
  intro h
  have h2 := (h.1 cexCond "a" "b").mp (by decide)
  rcases h2 with h2 | h2
  · simp only [cexCond, claimPatternTest] at h2
    rcases h2 with h2 | h2 | h2
    · exact absurd h2 (by decide)
    · exact absurd h2 (by decide)
    · exact absurd h2 (by decide)
  · exact absurd h2.1 (by decide)

/-- C2 amended: matches_tool(p, t) is true iff the condition is of variant
tool or default and either the qualified name mcp__p__t equals, starts
with, or contains a non-empty pattern, or the pattern is unset or empty and
the variant is default; other variants never match. -/
theorem matches_tool_qualified_name (c : EdgeCondition) (p t : String) :
    c.matches_tool p t = true ↔
      ((c.type = "tool" ∨ c.type = "default") ∧
        ((claimPatternTest c.tool ("mcp__" ++ p ++ "__" ++ t) ∧ c.tool ≠ some "")
         ∨ ((c.tool = none ∨ c.tool = some "") ∧ c.type = "default"))) := by
  unfold EdgeCondition.matches_tool
  cases hc : c.tool with
  | none =>
    by_cases ht : c.type = "tool"
    · simp [claimPatternTest, ht]
    · by_cases hd : c.type = "default"
      · simp [claimPatternTest, ht, hd]
      · simp [claimPatternTest, ht, hd]
  | some pat =>
    by_cases hp : pat = ""
    · subst hp
      by_cases ht : c.type = "tool"
      · simp [claimPatternTest, ht]
      · by_cases hd : c.type = "default"
        · simp [claimPatternTest, ht, hd]
        · simp [claimPatternTest, ht, hd]
    · by_cases ht : c.type = "tool"
      · simp [claimPatternTest, ht, hp, or_assoc]
      · by_cases hd : c.type = "default"
        · simp [claimPatternTest, ht, hd, hp, or_assoc]
        · simp [claimPatternTest, ht, hd, hp]

/-- C7: the outgoing index is non-decreasing in priority and, slice by
priority, preserves the insertion order of the edges list; the evaluator
output is likewise sorted and its priority slices are the matching edges of
the current node in insertion order. -/
theorem priority_order_and_ties (g : Graph) (s : GraphState) (nid : String)
    (tt : String) (tv : Option TriggerValue) (pv : Int) (cid : String)
    (hc : s.get_current_node = some cid)
    (hne : (cid == "") = false) :
    (g.get_outgoing_edges nid).Pairwise (fun a b => a.priority ≤ b.priority)
    ∧ (g.get_outgoing_edges nid).filter (fun e => e.priority == pv)
        = g.edges.filter (fun e => e.priority == pv && e.from_node == nid)
    ∧ (evaluate_transitions g s tt tv).Pairwise (fun a b => a.priority ≤ b.priority)
    ∧ (evaluate_transitions g s tt tv).filter (fun e => e.priority == pv)
        = g.edges.filter (fun e => edgeMatches e tt tv
            && (e.priority == pv && e.from_node == cid)) := by
  have heval : evaluate_transitions g s tt tv
      = sortEdges ((g.get_outgoing_edges cid).filter (fun e => edgeMatches e tt tv)) := by
    unfold evaluate_transitions
    rw [hc]
    simp only [hne, Bool.false_eq_true, if_false]
  refine ⟨sortEdges_pairwise _, ?_, ?_, ?_⟩
  · unfold Graph.get_outgoing_edges
    rw [sortEdges_filter_priority]
    simp only [List.filter_filter]
  · rw [heval]
    exact sortEdges_pairwise _
  · rw [heval, sortEdges_filter_priority]
    calc ((g.get_outgoing_edges cid).filter (fun e => edgeMatches e tt tv)).filter
          (fun e => e.priority == pv)
        = (g.get_outgoing_edges cid).filter
            (fun e => (e.priority == pv) && edgeMatches e tt tv) := by
          simp only [List.filter_filter]
      _ = (g.get_outgoing_edges cid).filter
            (fun e => edgeMatches e tt tv && (e.priority == pv)) :=
          filter_swap_and _ _ _
      _ = ((g.get_outgoing_edges cid).filter (fun e => e.priority == pv)).filter
            (fun e => edgeMatches e tt tv) := by
          rw [← List.filter_filter]
      _ = ((g.edges.filter (fun e => e.from_node == cid)).filter
            (fun e => e.priority == pv)).filter (fun e => edgeMatches e tt tv) := by
          unfold Graph.get_outgoing_edges
          rw [sortEdges_filter_priority]
      _ = g.edges.filter (fun e => edgeMatches e tt tv
            && (e.priority == pv && e.from_node == cid)) := by
          simp only [List.filter_filter]

/-- Witness for C7 on a graph with a priority tie: the tied edges keep their
insertion order both in the outgoing index and in the evaluator output. -/
theorem priority_order_and_ties_witness :
    (tieState.get_current_node = some "a")
    ∧ (("a" == "") = false)
    ∧ ((tieGraph.get_outgoing_edges "a").Pairwise (fun a b => a.priority ≤ b.priority)
       ∧ (tieGraph.get_outgoing_edges "a").filter (fun e => e.priority == (2 : Int))
           = tieGraph.edges.filter (fun e => e.priority == (2 : Int) && e.from_node == "a")
       ∧ (evaluate_transitions tieGraph tieState "none" none).Pairwise
           (fun a b => a.priority ≤ b.priority)
       ∧ (evaluate_transitions tieGraph tieState "none" none).filter
             (fun e => e.priority == (2 : Int))
           = tieGraph.edges.filter (fun e => edgeMatches e "none" none
               && (e.priority == (2 : Int) && e.from_node == "a"))) :=
  ⟨by decide, by decide,
   priority_order_and_ties tieGraph tieState "a" "none" none 2 "a" (by decide) (by decide)⟩

end PipelineManager
